import Mathlib

/-!
The DNS query cloud function

A shallow embedding of `dns-query-function.go`, the single handler `dnsQueryGet`
of the repository, and the properties of its request validation, query
construction and outcome translation.

The handler is straight-line code over three collaborators that are not part of
the repository: the HTTP transport (`net/http`), the formatter (`fmt`) and the
DNS library (`github.com/miekg/dns`).  The transport is embedded as a log of the
calls made on the response writer, the upstream exchange as a function of the
resolver, and the record-type table as a value of the resolver.
-/

namespace DnsQuery

/-! ## HTTP transport -/

/-- Status code `http.StatusOK`. -/
def StatusOK : Nat := 200

/-- Status code `http.StatusBadRequest`. -/
def StatusBadRequest : Nat := 400

/-- Status code `http.StatusInternalServerError`. -/
def StatusInternalServerError : Nat := 500

/-- Decoded query parameters, `url.Values`: each key with the values given for it,
in the order they were given. -/
structure Values where
  entries : List (String × List String)
deriving DecidableEq

/-- Method `Get` of `url.Values`: the first value of the key, or the empty string
when the key has no value. -/
def Values.Get (v : Values) (key : String) : String :=
  match v.entries.lookup key with
  | some (x :: _) => x
  | _ => ""

/-- The parts of `url.URL` a handler can read; `query` holds the decoded
`RawQuery`. -/
structure URL where
  Path : String
  query : Values
deriving DecidableEq

/-- Method `Query` of `url.URL`. -/
def URL.Query (u : URL) : Values := u.query

/-- An inbound `http.Request`: method, URL, headers and body. -/
structure Request where
  Method : String
  URL : URL
  Header : List (String × List String)
  Body : String
deriving DecidableEq

/-- One call made on the `http.ResponseWriter`. -/
inductive WriterCall where
  | writeHeader (code : Nat)
  | write (data : String)
deriving DecidableEq

/-- The `http.ResponseWriter` handed to a handler, as the log of the calls made on
it so far, oldest first. -/
structure ResponseWriter where
  calls : List WriterCall
deriving DecidableEq

/-- The writer a handler receives: nothing written yet. -/
def ResponseWriter.fresh : ResponseWriter := ⟨[]⟩

/-- Method `WriteHeader` of the response writer. -/
def ResponseWriter.WriteHeader (w : ResponseWriter) (code : Nat) : ResponseWriter :=
  ⟨w.calls ++ [WriterCall.writeHeader code]⟩

/-- Method `Write` of the response writer. -/
def ResponseWriter.Write (w : ResponseWriter) (data : String) : ResponseWriter :=
  ⟨w.calls ++ [WriterCall.write data]⟩

/-- The call `fmt.Fprintf(w, ...)`: one `Write` of the formatted text. -/
def Fprintf (w : ResponseWriter) (formatted : String) : ResponseWriter :=
  w.Write formatted

/-- Status the transport sends for a log of writer calls: the code of a
`WriteHeader` that comes first, and `StatusOK` when the first call is a `Write`
or when nothing was written at all (the implicit success status). -/
def statusOf : List WriterCall → Nat
  | WriterCall.writeHeader code :: _ => code
  | _ => StatusOK

/-- Body the transport sends for a log of writer calls: the written data in
order. -/
def bodyOf : List WriterCall → String
  | [] => ""
  | WriterCall.writeHeader _ :: rest => bodyOf rest
  | WriterCall.write data :: rest => data ++ bodyOf rest

/-- Explicit status writes in a log of writer calls. -/
def headerWrites : List WriterCall → List Nat
  | [] => []
  | WriterCall.writeHeader code :: rest => code :: headerWrites rest
  | WriterCall.write _ :: rest => headerWrites rest

/-- Whether no `WriteHeader` comes after a `Write` in a log of writer calls. -/
def headerFirst : List WriterCall → Bool
  | [] => true
  | WriterCall.writeHeader _ :: rest => headerFirst rest
  | WriterCall.write _ :: rest => (headerWrites rest).isEmpty

/-- Response status of a writer. -/
def ResponseWriter.Code (w : ResponseWriter) : Nat := statusOf w.calls

/-- Response body of a writer. -/
def ResponseWriter.Body (w : ResponseWriter) : String := bodyOf w.calls

/-! ## DNS library -/

/-- Class code `dns.ClassINET`, the Internet class. -/
def ClassINET : Nat := 1

/-- One entry of the question section, `dns.Question`. -/
structure Question where
  Name : String
  Qtype : Nat
  Qclass : Nat
deriving DecidableEq

/-- The sections of `dns.Msg` the handler touches: the questions it sets and the
answers it reads; the header fields are left out.  `RR` is the type of resource
records. -/
structure Msg (RR : Type) where
  Question : List Question
  Answer : List RR
deriving DecidableEq

/-- The message made by `new(dns.Msg)`. -/
def Msg.new (RR : Type) : Msg RR := ⟨[], []⟩

/-- The record-type set: each member with its mnemonic and its integer code. -/
abbrev TypeTable := List (String × Nat)

/-- Lookup `dns.StringToType[s]`: the code of the entry whose mnemonic is exactly
`s`, when there is one. -/
def StringToType (tbl : TypeTable) (s : String) : Option Nat :=
  tbl.lookup s

/-- Modelled from the spec: the test `dns.IsFqdn` of the DNS library (not part of
the repository), whether the name already has its trailing label terminator. -/
def IsFqdn (s : String) : Bool :=
  s.data.getLast? == some '.'

/-- Modelled from the spec: the function `dns.Fqdn` of the DNS library (not part of
the repository), which appends a trailing label terminator if not already
present. -/
def Fqdn (s : String) : String :=
  if IsFqdn s then s else s ++ "."

/-- Modelled from the spec: the method `SetQuestion` of `dns.Msg` in the DNS
library (not part of the repository), which makes the message a single-question
query of class Internet for the given name and type. -/
def Msg.SetQuestion {RR : Type} (m : Msg RR) (z : String) (t : Nat) : Msg RR :=
  { m with Question := [⟨z, t, ClassINET⟩] }

/-- The collaborators of one invocation.  `types` is the table
`dns.StringToType`, `Exchange` the method of `dns.Client` (it gives an error, or
with a nil error the response message, which is all the handler reads of its
results), `rrString` the text of a record under the verb v and `errString` the
text of an error under the verb v. -/
structure Resolver (RR Err : Type) where
  types : TypeTable
  Exchange : Msg RR → String → Except Err (Msg RR)
  rrString : RR → String
  errString : Err → String

/-! ## The handler -/

/-- What one invocation of the handler did: the response writer after it, and the
upstream exchanges it made, each with its message and target address. -/
structure Outcome (RR : Type) where
  w : ResponseWriter
  exchanges : List (Msg RR × String)

/-- The handler `dnsQueryGet` of `dns-query-function.go`. -/
def dnsQueryGet {RR Err : Type} (dns : Resolver RR Err) (w : ResponseWriter)
    (r : Request) : Outcome RR :=
  let fqdn := r.URL.Query.Get "fqdn"
  let qtype := r.URL.Query.Get "querytype"
  if fqdn = "" ∨ qtype = "" then
    ⟨Fprintf (w.WriteHeader StatusBadRequest) "Missing fqdn or querytype parameter", []⟩
  else
    match StringToType dns.types qtype with
    | none =>
      ⟨Fprintf (w.WriteHeader StatusBadRequest) "Invalid querytype parameter", []⟩
    | some dnsType =>
      let m := (Msg.new RR).SetQuestion (Fqdn fqdn) dnsType
      match dns.Exchange m "8.8.8.8:53" with
      | Except.error err =>
        ⟨Fprintf (w.WriteHeader StatusInternalServerError)
            ("DNS query failed: " ++ dns.errString err), [(m, "8.8.8.8:53")]⟩
      | Except.ok dnsResp =>
        ⟨dnsResp.Answer.foldl (fun w ans => Fprintf w (dns.rrString ans ++ "\n")) w,
          [(m, "8.8.8.8:53")]⟩

/-- One invocation by the transport: the handler runs on a fresh writer. -/
def serve {RR Err : Type} (dns : Resolver RR Err) (r : Request) : Outcome RR :=
  dnsQueryGet dns ResponseWriter.fresh r

/-- Whether a text holds a lowercase letter. -/
def hasLower (s : String) : Bool :=
  s.data.any Char.isLower

/-- Whether no mnemonic of a record-type table holds a lowercase letter. -/
def lowerFreeKeys (tbl : TypeTable) : Bool :=
  tbl.all (fun e => !hasLower e.1)

/-! ## Sample data -/

/-- The nine record types the interface description names, with the codes the DNS
protocol gives them. -/
def standardTypes : TypeTable :=
  [("A", 1), ("NS", 2), ("CNAME", 5), ("SOA", 6), ("PTR", 12), ("MX", 15),
   ("TXT", 16), ("AAAA", 28), ("SRV", 33)]

/-- A request with the given decoded query parameters. -/
def getRequest (params : List (String × List String)) : Request :=
  ⟨"GET", ⟨"/", ⟨params⟩⟩, [], ""⟩

/-- The nine mnemonics the interface description names. -/
def namedMnemonics : List String :=
  ["A", "AAAA", "MX", "TXT", "NS", "CNAME", "SOA", "PTR", "SRV"]

/-- Modelled from the spec: the content of the table `dns.StringToType` of the DNS
library (not part of the repository).  The spec names nine uppercase mnemonics
of the record-type set and leaves the rest open as other standard mnemonics;
`others` stands for whatever further names the library registers. -/
def libraryTypes (others : TypeTable) : TypeTable :=
  standardTypes ++ others

/-- The resolver `dns` with `libraryTypes others` as its record-type table. -/
def Resolver.listing {RR Err : Type} (dns : Resolver RR Err) (others : TypeTable) :
    Resolver RR Err :=
  { dns with types := libraryTypes others }

/-- A record-type table that, next to the nine standard types, holds the name None
for code 0, the way the DNS library names its constant `TypeNone` in its table of
type names. -/
def typesWithNone : TypeTable :=
  ("None", 0) :: standardTypes

/-- A resolver over text records whose upstream always answers with the given
result. -/
def fixedResolver (tbl : TypeTable) (result : Except String (Msg String)) :
    Resolver String String :=
  ⟨tbl, fun _ _ => result, id, id⟩

/-- A request that differs from `getRequest` in method, path, headers, body, the
order and number of its query parameters, and carries a second `fqdn` value. -/
def otherRequest : Request :=
  ⟨"POST", ⟨"/lookup", ⟨[("verbose", ["1"]), ("querytype", ["TXT"]),
      ("fqdn", ["example.com", "example.org"])]⟩⟩,
    [("Content-Type", ["text/plain"])], "ignored"⟩

/-! ## Writer lemmas -/

theorem calls_foldl_Fprintf {α : Type} (f : α → String) (l : List α) (w : ResponseWriter) :
    (l.foldl (fun w a => Fprintf w (f a)) w).calls
      = w.calls ++ l.map (fun a => WriterCall.write (f a)) := by
  induction l generalizing w with
  | nil => simp
  | cons a l ih =>
    rw [List.foldl_cons, ih]
    simp [Fprintf, ResponseWriter.Write]

theorem statusOf_writes {α : Type} (f : α → String) (l : List α) :
    statusOf (l.map (fun a => WriterCall.write (f a))) = StatusOK := by
  cases l <;> rfl

theorem headerWrites_writes {α : Type} (f : α → String) (l : List α) :
    headerWrites (l.map (fun a => WriterCall.write (f a))) = [] := by
  induction l with
  | nil => rfl
  | cons a l ih => simpa [headerWrites] using ih

theorem headerFirst_writes {α : Type} (f : α → String) (l : List α) :
    headerFirst (l.map (fun a => WriterCall.write (f a))) = true := by
  cases l with
  | nil => rfl
  | cons a l => simp [headerFirst, headerWrites_writes]

theorem join_cons (s : String) (l : List String) :
    String.join (s :: l) = s ++ String.join l := by
  apply String.ext
  simp [String.data_join]

theorem bodyOf_writes {α : Type} (f : α → String) (l : List α) :
    bodyOf (l.map (fun a => WriterCall.write (f a))) = String.join (l.map f) := by
  induction l with
  | nil => rfl
  | cons a l ih => simp [bodyOf, ih, join_cons]

theorem count_newline_join {α : Type} (f : α → String) (l : List α)
    (h : ∀ a ∈ l, '\n' ∉ (f a).data) :
    (String.join (l.map (fun a => f a ++ "\n"))).data.count '\n' = l.length := by
  induction l with
  | nil => rfl
  | cons a l ih =>
    have ha : (f a).data.count '\n' = 0 :=
      List.count_eq_zero.mpr (h a (List.mem_cons_self a l))
    have hl := ih (fun b hb => h b (List.mem_cons_of_mem a hb))
    rw [List.map_cons, join_cons, String.data_append, String.data_append,
      List.count_append, List.count_append, ha, hl]
    simp [Nat.add_comm]

/-- The calls a run of the answer loop leaves on a fresh writer. -/
theorem calls_answer_loop {RR : Type} (f : RR → String) (l : List RR) :
    (l.foldl (fun w ans => Fprintf w (f ans ++ "\n")) ResponseWriter.fresh).calls
      = l.map (fun ans => WriterCall.write (f ans ++ "\n")) := by
  rw [calls_foldl_Fprintf (fun ans => f ans ++ "\n")]
  simp [ResponseWriter.fresh]

/-! ## The four exits of the handler -/

theorem dnsQueryGet_missing {RR Err : Type} (dns : Resolver RR Err) (w : ResponseWriter)
    (r : Request)
    (h : r.URL.Query.Get "fqdn" = "" ∨ r.URL.Query.Get "querytype" = "") :
    dnsQueryGet dns w r
      = ⟨Fprintf (w.WriteHeader StatusBadRequest) "Missing fqdn or querytype parameter", []⟩ := by
  simp only [dnsQueryGet, if_pos h]

theorem dnsQueryGet_invalid {RR Err : Type} (dns : Resolver RR Err) (w : ResponseWriter)
    (r : Request)
    (hf : r.URL.Query.Get "fqdn" ≠ "") (hq : r.URL.Query.Get "querytype" ≠ "")
    (hk : StringToType dns.types (r.URL.Query.Get "querytype") = none) :
    dnsQueryGet dns w r
      = ⟨Fprintf (w.WriteHeader StatusBadRequest) "Invalid querytype parameter", []⟩ := by
  have h : ¬ (r.URL.Query.Get "fqdn" = "" ∨ r.URL.Query.Get "querytype" = "") := by
    simp [hf, hq]
  simp only [dnsQueryGet, if_neg h, hk]

theorem dnsQueryGet_failed {RR Err : Type} (dns : Resolver RR Err) (w : ResponseWriter)
    (r : Request) (dnsType : Nat) (err : Err)
    (hf : r.URL.Query.Get "fqdn" ≠ "") (hq : r.URL.Query.Get "querytype" ≠ "")
    (hk : StringToType dns.types (r.URL.Query.Get "querytype") = some dnsType)
    (hx : dns.Exchange ((Msg.new RR).SetQuestion (Fqdn (r.URL.Query.Get "fqdn")) dnsType)
            "8.8.8.8:53" = Except.error err) :
    dnsQueryGet dns w r
      = ⟨Fprintf (w.WriteHeader StatusInternalServerError)
            ("DNS query failed: " ++ dns.errString err),
          [((Msg.new RR).SetQuestion (Fqdn (r.URL.Query.Get "fqdn")) dnsType, "8.8.8.8:53")]⟩ := by
  have h : ¬ (r.URL.Query.Get "fqdn" = "" ∨ r.URL.Query.Get "querytype" = "") := by
    simp [hf, hq]
  simp only [dnsQueryGet, if_neg h, hk, hx]

theorem dnsQueryGet_answered {RR Err : Type} (dns : Resolver RR Err) (w : ResponseWriter)
    (r : Request) (dnsType : Nat) (dnsResp : Msg RR)
    (hf : r.URL.Query.Get "fqdn" ≠ "") (hq : r.URL.Query.Get "querytype" ≠ "")
    (hk : StringToType dns.types (r.URL.Query.Get "querytype") = some dnsType)
    (hx : dns.Exchange ((Msg.new RR).SetQuestion (Fqdn (r.URL.Query.Get "fqdn")) dnsType)
            "8.8.8.8:53" = Except.ok dnsResp) :
    dnsQueryGet dns w r
      = ⟨dnsResp.Answer.foldl (fun w ans => Fprintf w (dns.rrString ans ++ "\n")) w,
          [((Msg.new RR).SetQuestion (Fqdn (r.URL.Query.Get "fqdn")) dnsType, "8.8.8.8:53")]⟩ := by
  have h : ¬ (r.URL.Query.Get "fqdn" = "" ∨ r.URL.Query.Get "querytype" = "") := by
    simp [hf, hq]
  simp only [dnsQueryGet, if_neg h, hk, hx]

/-- Every invocation leaves by exactly one of the four exits of the handler. -/
theorem serve_exits {RR Err : Type} (dns : Resolver RR Err) (r : Request) :
    ((r.URL.Query.Get "fqdn" = "" ∨ r.URL.Query.Get "querytype" = "") ∧
      serve dns r = ⟨⟨[WriterCall.writeHeader 400,
        WriterCall.write "Missing fqdn or querytype parameter"]⟩, []⟩) ∨
    (r.URL.Query.Get "fqdn" ≠ "" ∧ r.URL.Query.Get "querytype" ≠ "" ∧
      StringToType dns.types (r.URL.Query.Get "querytype") = none ∧
      serve dns r = ⟨⟨[WriterCall.writeHeader 400,
        WriterCall.write "Invalid querytype parameter"]⟩, []⟩) ∨
    (r.URL.Query.Get "fqdn" ≠ "" ∧ r.URL.Query.Get "querytype" ≠ "" ∧
      ∃ dnsType err,
        StringToType dns.types (r.URL.Query.Get "querytype") = some dnsType ∧
        dns.Exchange ((Msg.new RR).SetQuestion (Fqdn (r.URL.Query.Get "fqdn")) dnsType)
          "8.8.8.8:53" = Except.error err ∧
        serve dns r = ⟨⟨[WriterCall.writeHeader 500,
          WriterCall.write ("DNS query failed: " ++ dns.errString err)]⟩,
          [((Msg.new RR).SetQuestion (Fqdn (r.URL.Query.Get "fqdn")) dnsType,
            "8.8.8.8:53")]⟩) ∨
    (r.URL.Query.Get "fqdn" ≠ "" ∧ r.URL.Query.Get "querytype" ≠ "" ∧
      ∃ dnsType dnsResp,
        StringToType dns.types (r.URL.Query.Get "querytype") = some dnsType ∧
        dns.Exchange ((Msg.new RR).SetQuestion (Fqdn (r.URL.Query.Get "fqdn")) dnsType)
          "8.8.8.8:53" = Except.ok dnsResp ∧
        serve dns r = ⟨⟨dnsResp.Answer.map
            (fun ans => WriterCall.write (dns.rrString ans ++ "\n"))⟩,
          [((Msg.new RR).SetQuestion (Fqdn (r.URL.Query.Get "fqdn")) dnsType,
            "8.8.8.8:53")]⟩) := by
  by_cases h : r.URL.Query.Get "fqdn" = "" ∨ r.URL.Query.Get "querytype" = ""
  · exact Or.inl ⟨h, by rw [serve, dnsQueryGet_missing dns _ r h]; rfl⟩
  · have hf : r.URL.Query.Get "fqdn" ≠ "" := fun e => h (Or.inl e)
    have hq : r.URL.Query.Get "querytype" ≠ "" := fun e => h (Or.inr e)
    cases hk : StringToType dns.types (r.URL.Query.Get "querytype") with
    | none =>
      exact Or.inr (Or.inl ⟨hf, hq, rfl, by rw [serve, dnsQueryGet_invalid dns _ r hf hq hk]; rfl⟩)
    | some dnsType =>
      cases hx : dns.Exchange
          ((Msg.new RR).SetQuestion (Fqdn (r.URL.Query.Get "fqdn")) dnsType) "8.8.8.8:53" with
      | error err =>
        exact Or.inr (Or.inr (Or.inl ⟨hf, hq, dnsType, err, rfl, hx, by
          rw [serve, dnsQueryGet_failed dns _ r dnsType err hf hq hk hx]; rfl⟩))
      | ok dnsResp =>
        refine Or.inr (Or.inr (Or.inr ⟨hf, hq, dnsType, dnsResp, rfl, hx, ?_⟩))
        rw [serve, dnsQueryGet_answered dns _ r dnsType dnsResp hf hq hk hx]
        have hc := calls_answer_loop dns.rrString dnsResp.Answer
        cases hw : dnsResp.Answer.foldl
            (fun w ans => Fprintf w (dns.rrString ans ++ "\n")) ResponseWriter.fresh with
        | mk calls =>
          rw [hw] at hc
          simp only [] at hc
          rw [hc]

/-! ## Validation -/

/-- C1: a request whose `fqdn` or `querytype` parameter is empty or absent is
answered with status 400 and the body "Missing fqdn or querytype parameter",
whatever the other parameter is and whatever the record-type table holds. -/
theorem missing_parameter_rejected {RR Err : Type} (dns : Resolver RR Err) (r : Request)
    (h : r.URL.Query.Get "fqdn" = "" ∨ r.URL.Query.Get "querytype" = "") :
    (serve dns r).w.Code = 400 ∧
    (serve dns r).w.Body = "Missing fqdn or querytype parameter" := by
  rw [serve, dnsQueryGet_missing dns _ r h]
  exact ⟨rfl, rfl⟩

/-- Witness of C1: `fqdn` is absent and `querytype` is the unknown token ZZZ. -/
theorem missing_parameter_rejected_witness :
    ((getRequest [("querytype", ["ZZZ"])]).URL.Query.Get "fqdn" = "" ∨
      (getRequest [("querytype", ["ZZZ"])]).URL.Query.Get "querytype" = "") ∧
    (serve (fixedResolver standardTypes (Except.error "unreachable"))
      (getRequest [("querytype", ["ZZZ"])])).w.Code = 400 ∧
    (serve (fixedResolver standardTypes (Except.error "unreachable"))
      (getRequest [("querytype", ["ZZZ"])])).w.Body
        = "Missing fqdn or querytype parameter" :=
  ⟨by decide, missing_parameter_rejected _ _ (by decide)⟩

/-- C2: a request with a non-empty `fqdn` and a non-empty `querytype` that is not a
key of the record-type table is answered with status 400 and the body
"Invalid querytype parameter". -/
theorem unknown_querytype_rejected {RR Err : Type} (dns : Resolver RR Err) (r : Request)
    (hf : r.URL.Query.Get "fqdn" ≠ "") (hq : r.URL.Query.Get "querytype" ≠ "")
    (hk : StringToType dns.types (r.URL.Query.Get "querytype") = none) :
    (serve dns r).w.Code = 400 ∧
    (serve dns r).w.Body = "Invalid querytype parameter" := by
  rw [serve, dnsQueryGet_invalid dns _ r hf hq hk]
  exact ⟨rfl, rfl⟩

/-- Witness of C2: the token ZZZ against the nine standard types. -/
theorem unknown_querytype_rejected_witness :
    (getRequest [("fqdn", ["example.com"]), ("querytype", ["ZZZ"])]).URL.Query.Get "fqdn" ≠ "" ∧
    (getRequest [("fqdn", ["example.com"]), ("querytype", ["ZZZ"])]).URL.Query.Get "querytype"
      ≠ "" ∧
    StringToType standardTypes "ZZZ" = none ∧
    (serve (fixedResolver standardTypes (Except.ok ⟨[], ["example.com. 60 IN A 192.0.2.1"]⟩))
      (getRequest [("fqdn", ["example.com"]), ("querytype", ["ZZZ"])])).w.Code = 400 ∧
    (serve (fixedResolver standardTypes (Except.ok ⟨[], ["example.com. 60 IN A 192.0.2.1"]⟩))
      (getRequest [("fqdn", ["example.com"]), ("querytype", ["ZZZ"])])).w.Body
        = "Invalid querytype parameter" :=
  ⟨by decide, by decide, by decide,
    unknown_querytype_rejected _ _ (by decide) (by decide) (by decide)⟩

/-! ## Outcome translation -/

/-- C3: when a validated request meets an upstream exchange that returns the error
`err`, the response has status 500 and its body is "DNS query failed: " followed
by the text of `err`; the writer saw the status write and that one body write and
nothing else, so no answer line is in the body. -/
theorem exchange_error_reported {RR Err : Type} (dns : Resolver RR Err) (r : Request)
    (dnsType : Nat) (err : Err)
    (hf : r.URL.Query.Get "fqdn" ≠ "") (hq : r.URL.Query.Get "querytype" ≠ "")
    (hk : StringToType dns.types (r.URL.Query.Get "querytype") = some dnsType)
    (hx : dns.Exchange ((Msg.new RR).SetQuestion (Fqdn (r.URL.Query.Get "fqdn")) dnsType)
            "8.8.8.8:53" = Except.error err) :
    (serve dns r).w.Code = 500 ∧
    (serve dns r).w.Body = "DNS query failed: " ++ dns.errString err ∧
    (serve dns r).w.calls
      = [WriterCall.writeHeader 500,
         WriterCall.write ("DNS query failed: " ++ dns.errString err)] := by
  rw [serve, dnsQueryGet_failed dns _ r dnsType err hf hq hk hx]
  refine ⟨rfl, ?_, rfl⟩
  simp [Fprintf, ResponseWriter.Write, ResponseWriter.WriteHeader, ResponseWriter.Body,
    ResponseWriter.fresh, bodyOf]

/-- Witness of C3: an MX query whose exchange times out. -/
theorem exchange_error_reported_witness :
    (serve (fixedResolver standardTypes (Except.error "i/o timeout"))
      (getRequest [("fqdn", ["example.com"]), ("querytype", ["MX"])])).w.Code = 500 ∧
    (serve (fixedResolver standardTypes (Except.error "i/o timeout"))
      (getRequest [("fqdn", ["example.com"]), ("querytype", ["MX"])])).w.Body
        = "DNS query failed: i/o timeout" :=
  have h := exchange_error_reported (fixedResolver standardTypes (Except.error "i/o timeout"))
    (getRequest [("fqdn", ["example.com"]), ("querytype", ["MX"])]) 15 "i/o timeout"
    (by decide) (by decide) (by decide) rfl
  ⟨h.1, h.2.1⟩

/-- C4: when a validated request meets an upstream exchange that succeeds with the
answers r1 .. rn, the response has status 200 with no explicit status write, and
its body is the text of r1 followed by a newline, then that of r2, and so on in
the order received: one write per answer, n newlines when no record text holds
one itself, and the empty body when there is no answer. -/
theorem answers_rendered {RR Err : Type} (dns : Resolver RR Err) (r : Request)
    (dnsType : Nat) (dnsResp : Msg RR)
    (hf : r.URL.Query.Get "fqdn" ≠ "") (hq : r.URL.Query.Get "querytype" ≠ "")
    (hk : StringToType dns.types (r.URL.Query.Get "querytype") = some dnsType)
    (hx : dns.Exchange ((Msg.new RR).SetQuestion (Fqdn (r.URL.Query.Get "fqdn")) dnsType)
            "8.8.8.8:53" = Except.ok dnsResp) :
    (serve dns r).w.Code = 200 ∧
    headerWrites (serve dns r).w.calls = [] ∧
    (serve dns r).w.calls
      = dnsResp.Answer.map (fun ans => WriterCall.write (dns.rrString ans ++ "\n")) ∧
    (serve dns r).w.Body
      = String.join (dnsResp.Answer.map (fun ans => dns.rrString ans ++ "\n")) ∧
    ((∀ ans ∈ dnsResp.Answer, '\n' ∉ (dns.rrString ans).data) →
      (serve dns r).w.Body.data.count '\n' = dnsResp.Answer.length) ∧
    (dnsResp.Answer = [] → (serve dns r).w.Body = "") := by
  rw [serve, dnsQueryGet_answered dns _ r dnsType dnsResp hf hq hk hx]
  have hc := calls_answer_loop dns.rrString dnsResp.Answer
  have hb : (dnsResp.Answer.foldl (fun w ans => Fprintf w (dns.rrString ans ++ "\n"))
      ResponseWriter.fresh).Body
        = String.join (dnsResp.Answer.map (fun ans => dns.rrString ans ++ "\n")) := by
    rw [ResponseWriter.Body, hc]
    exact bodyOf_writes (fun ans => dns.rrString ans ++ "\n") dnsResp.Answer
  refine ⟨?_, ?_, hc, hb, ?_, ?_⟩
  · rw [ResponseWriter.Code, hc]
    exact statusOf_writes (fun ans => dns.rrString ans ++ "\n") dnsResp.Answer
  · rw [hc]
    exact headerWrites_writes (fun ans => dns.rrString ans ++ "\n") dnsResp.Answer
  · intro hn
    rw [hb]
    exact count_newline_join dns.rrString dnsResp.Answer hn
  · intro he
    rw [hb, he]
    rfl

/-- Witness of C4: an A query answered with two records. -/
theorem answers_rendered_witness :
    (serve (fixedResolver standardTypes
        (Except.ok ⟨[], ["example.com.\t60\tIN\tA\t192.0.2.1", "example.com.\t60\tIN\tA\t192.0.2.2"]⟩))
      (getRequest [("fqdn", ["example.com"]), ("querytype", ["A"])])).w.Code = 200 ∧
    (serve (fixedResolver standardTypes
        (Except.ok ⟨[], ["example.com.\t60\tIN\tA\t192.0.2.1", "example.com.\t60\tIN\tA\t192.0.2.2"]⟩))
      (getRequest [("fqdn", ["example.com"]), ("querytype", ["A"])])).w.Body
        = "example.com.\t60\tIN\tA\t192.0.2.1\nexample.com.\t60\tIN\tA\t192.0.2.2\n" :=
  have h := answers_rendered
    (fixedResolver standardTypes
      (Except.ok ⟨[], ["example.com.\t60\tIN\tA\t192.0.2.1", "example.com.\t60\tIN\tA\t192.0.2.2"]⟩))
    (getRequest [("fqdn", ["example.com"]), ("querytype", ["A"])]) 1
    ⟨[], ["example.com.\t60\tIN\tA\t192.0.2.1", "example.com.\t60\tIN\tA\t192.0.2.2"]⟩
    (by decide) (by decide) (by decide) rfl
  ⟨h.1, h.2.2.2.1.trans (by decide)⟩

/-- The status is 400 exactly when validation fails. -/
theorem exactly_one_400 {RR Err : Type} (dns : Resolver RR Err) (r : Request) :
    (serve dns r).w.Code = 400 ↔
      (r.URL.Query.Get "fqdn" = "" ∨ r.URL.Query.Get "querytype" = "" ∨
        StringToType dns.types (r.URL.Query.Get "querytype") = none) := by
  rcases serve_exits dns r with ⟨h, e⟩ | ⟨hf, hq, hk, e⟩ | ⟨hf, hq, t, err, hk, hx, e⟩ |
    ⟨hf, hq, t, resp, hk, hx, e⟩
  · refine ⟨fun _ => ?_, fun _ => by rw [e]; rfl⟩
    rcases h with h | h
    · exact Or.inl h
    · exact Or.inr (Or.inl h)
  · exact ⟨fun _ => Or.inr (Or.inr hk), fun _ => by rw [e]; rfl⟩
  · constructor
    · intro hc
      rw [e] at hc
      change (500 : Nat) = 400 at hc
      exact absurd hc (by decide)
    · rintro (h | h | h)
      · exact absurd h hf
      · exact absurd h hq
      · rw [hk] at h
        cases h
  · constructor
    · intro hc
      have h200 : (serve dns r).w.Code = 200 := by
        rw [e, ResponseWriter.Code]
        exact statusOf_writes (fun ans => dns.rrString ans ++ "\n") resp.Answer
      rw [h200] at hc
      exact absurd hc (by decide)
    · rintro (h | h | h)
      · exact absurd h hf
      · exact absurd h hq
      · rw [hk] at h
        cases h

/-- The response of the second exit: a non-empty `querytype` that is no key of the
table. -/
theorem unknown_lookup_rejected {RR Err : Type} (dns : Resolver RR Err) (r : Request)
    (hf : r.URL.Query.Get "fqdn" ≠ "") (hq : r.URL.Query.Get "querytype" ≠ "")
    (hk : StringToType dns.types (r.URL.Query.Get "querytype") = none) :
    (serve dns r).w.Code = 400 ∧
    (serve dns r).w.Body = "Invalid querytype parameter" := by
  rw [serve, dnsQueryGet_invalid dns _ r hf hq hk]
  exact ⟨rfl, rfl⟩


/-! ## Upstream exchanges -/

/-- C5: a request answered with 400 (a missing parameter or a `querytype` that is
not a key of the table) makes no upstream exchange, and a request that passes
validation makes exactly one, addressed to "8.8.8.8:53", whatever that exchange
returns. -/
theorem exchanges_follow_validation {RR Err : Type} (dns : Resolver RR Err) (r : Request) :
    ((r.URL.Query.Get "fqdn" = "" ∨ r.URL.Query.Get "querytype" = "" ∨
        StringToType dns.types (r.URL.Query.Get "querytype") = none) →
      (serve dns r).exchanges = []) ∧
    ((serve dns r).w.Code = 400 → (serve dns r).exchanges = []) ∧
    (∀ dnsType, r.URL.Query.Get "fqdn" ≠ "" → r.URL.Query.Get "querytype" ≠ "" →
      StringToType dns.types (r.URL.Query.Get "querytype") = some dnsType →
      (serve dns r).exchanges
        = [((Msg.new RR).SetQuestion (Fqdn (r.URL.Query.Get "fqdn")) dnsType, "8.8.8.8:53")] ∧
      (serve dns r).exchanges.length = 1 ∧
      (serve dns r).exchanges.map Prod.snd = ["8.8.8.8:53"]) := by
  rcases serve_exits dns r with ⟨h, e⟩ | ⟨hf, hq, hk, e⟩ | ⟨hf, hq, t, err, hk, _, e⟩ |
    ⟨hf, hq, t, resp, hk, _, e⟩
  · refine ⟨fun _ => by rw [e], fun _ => by rw [e], ?_⟩
    intro t hf hq _
    rcases h with h | h
    · exact absurd h hf
    · exact absurd h hq
  · refine ⟨fun _ => by rw [e], fun _ => by rw [e], ?_⟩
    intro t _ _ hk2
    rw [hk] at hk2
    cases hk2
  · refine ⟨?_, ?_, ?_⟩
    · rintro (h | h | h)
      · exact absurd h hf
      · exact absurd h hq
      · rw [hk] at h
        cases h
    · intro hc
      rw [e] at hc
      change (500 : Nat) = 400 at hc
      exact absurd hc (by decide)
    · intro t2 _ _ hk2
      rw [hk] at hk2
      cases hk2
      rw [e]
      exact ⟨rfl, rfl, rfl⟩
  · refine ⟨?_, ?_, ?_⟩
    · rintro (h | h | h)
      · exact absurd h hf
      · exact absurd h hq
      · rw [hk] at h
        cases h
    · intro hc
      rw [e] at hc
      have h200 : statusOf (resp.Answer.map
          (fun ans => WriterCall.write (dns.rrString ans ++ "\n"))) = StatusOK :=
        statusOf_writes (fun ans => dns.rrString ans ++ "\n") resp.Answer
      rw [ResponseWriter.Code] at hc
      simp only [] at hc
      rw [h200] at hc
      exact absurd hc (by decide)
    · intro t2 _ _ hk2
      rw [hk] at hk2
      cases hk2
      rw [e]
      exact ⟨rfl, rfl, rfl⟩

/-! ## The outcome of a request -/

/-- C8: every invocation ends with exactly one status out of 200, 400 and 500: 400
exactly when `fqdn` is empty, `querytype` is empty or `querytype` is not a key of
the table; 500 exactly when validation passes and the exchange returns an error;
200 exactly when validation passes and the exchange returns a response.  The
status is written at most once and before any body write; 400 and 500 are
written by the handler, 200 is left implicit. -/
theorem exactly_one_outcome {RR Err : Type} (dns : Resolver RR Err) (r : Request) :
    ((serve dns r).w.Code = 200 ∨ (serve dns r).w.Code = 400 ∨ (serve dns r).w.Code = 500) ∧
    ((serve dns r).w.Code = 400 ↔
      (r.URL.Query.Get "fqdn" = "" ∨ r.URL.Query.Get "querytype" = "" ∨
        StringToType dns.types (r.URL.Query.Get "querytype") = none)) ∧
    ((serve dns r).w.Code = 500 ↔
      (r.URL.Query.Get "fqdn" ≠ "" ∧ r.URL.Query.Get "querytype" ≠ "" ∧
        ∃ dnsType err,
          StringToType dns.types (r.URL.Query.Get "querytype") = some dnsType ∧
          dns.Exchange ((Msg.new RR).SetQuestion (Fqdn (r.URL.Query.Get "fqdn")) dnsType)
            "8.8.8.8:53" = Except.error err)) ∧
    ((serve dns r).w.Code = 200 ↔
      (r.URL.Query.Get "fqdn" ≠ "" ∧ r.URL.Query.Get "querytype" ≠ "" ∧
        ∃ dnsType dnsResp,
          StringToType dns.types (r.URL.Query.Get "querytype") = some dnsType ∧
          dns.Exchange ((Msg.new RR).SetQuestion (Fqdn (r.URL.Query.Get "fqdn")) dnsType)
            "8.8.8.8:53" = Except.ok dnsResp)) ∧
    (headerWrites (serve dns r).w.calls).length ≤ 1 ∧
    headerFirst (serve dns r).w.calls = true ∧
    ((serve dns r).w.Code ≠ 200 →
      headerWrites (serve dns r).w.calls = [(serve dns r).w.Code]) ∧
    ((serve dns r).w.Code = 200 → headerWrites (serve dns r).w.calls = []) := by
  rcases serve_exits dns r with ⟨h, e⟩ | ⟨hf, hq, hk, e⟩ | ⟨hf, hq, t, err, hk, hx, e⟩ |
    ⟨hf, hq, t, resp, hk, hx, e⟩
  · have hc : (serve dns r).w.Code = 400 := by rw [e]; rfl
    have hw : headerWrites (serve dns r).w.calls = [400] := by rw [e]; rfl
    have hh : headerFirst (serve dns r).w.calls = true := by rw [e]; rfl
    have hv : ¬ (r.URL.Query.Get "fqdn" ≠ "" ∧ r.URL.Query.Get "querytype" ≠ "") := by
      rintro ⟨hf, hq⟩
      rcases h with h | h
      · exact hf h
      · exact hq h
    rw [hc, hw]
    refine ⟨Or.inr (Or.inl rfl), ⟨fun _ => ?_, fun _ => rfl⟩, ⟨fun h5 => absurd h5 (by decide), ?_⟩,
      ⟨fun h2 => absurd h2 (by decide), ?_⟩, by decide, hh, fun _ => rfl, fun h2 => absurd h2 (by decide)⟩
    · rcases h with h | h
      · exact Or.inl h
      · exact Or.inr (Or.inl h)
    · rintro ⟨hf, hq, _⟩
      exact absurd ⟨hf, hq⟩ hv
    · rintro ⟨hf, hq, _⟩
      exact absurd ⟨hf, hq⟩ hv
  · have hc : (serve dns r).w.Code = 400 := by rw [e]; rfl
    have hw : headerWrites (serve dns r).w.calls = [400] := by rw [e]; rfl
    have hh : headerFirst (serve dns r).w.calls = true := by rw [e]; rfl
    rw [hc, hw]
    refine ⟨Or.inr (Or.inl rfl), ⟨fun _ => Or.inr (Or.inr hk), fun _ => rfl⟩,
      ⟨fun h5 => absurd h5 (by decide), ?_⟩, ⟨fun h2 => absurd h2 (by decide), ?_⟩, by decide, hh,
      fun _ => rfl, fun h2 => absurd h2 (by decide)⟩
    · rintro ⟨_, _, t, _, hk2, _⟩
      rw [hk] at hk2
      cases hk2
    · rintro ⟨_, _, t, _, hk2, _⟩
      rw [hk] at hk2
      cases hk2
  · have hc : (serve dns r).w.Code = 500 := by rw [e]; rfl
    have hw : headerWrites (serve dns r).w.calls = [500] := by rw [e]; rfl
    have hh : headerFirst (serve dns r).w.calls = true := by rw [e]; rfl
    rw [hc, hw]
    refine ⟨Or.inr (Or.inr rfl), ⟨fun h4 => absurd h4 (by decide), ?_⟩,
      ⟨fun _ => ⟨hf, hq, t, err, hk, hx⟩, fun _ => rfl⟩, ⟨fun h2 => absurd h2 (by decide), ?_⟩,
      by decide, hh, fun _ => rfl, fun h2 => absurd h2 (by decide)⟩
    · rintro (h | h | h)
      · exact absurd h hf
      · exact absurd h hq
      · rw [hk] at h
        cases h
    · rintro ⟨_, _, t2, resp, hk2, hx2⟩
      rw [hk] at hk2
      cases hk2
      rw [hx] at hx2
      cases hx2
  · have hc : (serve dns r).w.Code = 200 := by
      rw [e, ResponseWriter.Code]
      exact statusOf_writes (fun ans => dns.rrString ans ++ "\n") resp.Answer
    have hw : headerWrites (serve dns r).w.calls = [] := by
      rw [e]
      exact headerWrites_writes (fun ans => dns.rrString ans ++ "\n") resp.Answer
    have hh : headerFirst (serve dns r).w.calls = true := by
      rw [e]
      exact headerFirst_writes (fun ans => dns.rrString ans ++ "\n") resp.Answer
    rw [hc, hw]
    refine ⟨Or.inl rfl, ⟨fun h4 => absurd h4 (by decide), ?_⟩, ⟨fun h5 => absurd h5 (by decide), ?_⟩,
      ⟨fun _ => ⟨hf, hq, t, resp, hk, hx⟩, fun _ => rfl⟩, by decide, hh,
      fun h2 => absurd rfl h2, fun _ => rfl⟩
    · rintro (h | h | h)
      · exact absurd h hf
      · exact absurd h hq
      · rw [hk] at h
        cases h
    · rintro ⟨_, _, t2, err, hk2, hx2⟩
      rw [hk] at hk2
      cases hk2
      rw [hx] at hx2
      cases hx2

/-- C9: two requests with the same first `fqdn` value and the same first
`querytype` value get, from the same resolver, the same status, the same body
and the same upstream exchanges, whatever their method, headers, body and
other query parameters. -/
theorem response_depends_on_parameters {RR Err : Type} (dns : Resolver RR Err)
    (r1 r2 : Request)
    (hf : r1.URL.Query.Get "fqdn" = r2.URL.Query.Get "fqdn")
    (hq : r1.URL.Query.Get "querytype" = r2.URL.Query.Get "querytype") :
    (serve dns r1).w.Code = (serve dns r2).w.Code ∧
    (serve dns r1).w.Body = (serve dns r2).w.Body ∧
    (serve dns r1).exchanges = (serve dns r2).exchanges := by
  have h : serve dns r1 = serve dns r2 := by
    simp only [serve, dnsQueryGet, hf, hq]
  rw [h]
  exact ⟨rfl, rfl, rfl⟩

/-- Witness of C9: a plain GET and a POST with headers, a body, a further
parameter and a second `fqdn` value get the same response. -/
theorem response_depends_on_parameters_witness :
    (serve (fixedResolver standardTypes (Except.ok ⟨[], ["example.com.\t60\tIN\tTXT\t\"v=1\""]⟩))
      (getRequest [("fqdn", ["example.com"]), ("querytype", ["TXT"])])).w.Body
      = (serve (fixedResolver standardTypes
          (Except.ok ⟨[], ["example.com.\t60\tIN\tTXT\t\"v=1\""]⟩)) otherRequest).w.Body ∧
    getRequest [("fqdn", ["example.com"]), ("querytype", ["TXT"])] ≠ otherRequest :=
  ⟨(response_depends_on_parameters _ _ _ (by decide) (by decide)).2.1, by decide⟩

/-! ## Query construction -/

theorem Fqdn_of_terminated (s : String) (h : s.data.getLast? = some '.') : Fqdn s = s := by
  simp [Fqdn, IsFqdn, h]

theorem Fqdn_of_open (s : String) (h : s.data.getLast? ≠ some '.') : Fqdn s = s ++ "." := by
  simp [Fqdn, IsFqdn, h]

theorem Fqdn_terminated (s : String) : (Fqdn s).data.getLast? = some '.' := by
  by_cases h : s.data.getLast? = some '.'
  · rw [Fqdn_of_terminated s h]
    exact h
  · rw [Fqdn_of_open s h, String.data_append]
    exact List.getLast?_concat s.data

/-- C6: the message a validated request sends upstream has exactly one question,
of class Internet, of the type `querytype` maps to in the table, and named by
the normalized `fqdn`: `fqdn` itself when it ends with the terminator ".", and
`fqdn` followed by "." otherwise; the name always ends with "." and normalizing
it again changes nothing. -/
theorem single_question_sent {RR Err : Type} (dns : Resolver RR Err) (r : Request)
    (dnsType : Nat)
    (hf : r.URL.Query.Get "fqdn" ≠ "") (hq : r.URL.Query.Get "querytype" ≠ "")
    (hk : StringToType dns.types (r.URL.Query.Get "querytype") = some dnsType) :
    (serve dns r).exchanges.map (fun x => x.1.Question)
      = [[⟨Fqdn (r.URL.Query.Get "fqdn"), dnsType, ClassINET⟩]] ∧
    ((r.URL.Query.Get "fqdn").data.getLast? = some '.' →
      Fqdn (r.URL.Query.Get "fqdn") = r.URL.Query.Get "fqdn") ∧
    ((r.URL.Query.Get "fqdn").data.getLast? ≠ some '.' →
      Fqdn (r.URL.Query.Get "fqdn") = r.URL.Query.Get "fqdn" ++ ".") ∧
    (Fqdn (r.URL.Query.Get "fqdn")).data.getLast? = some '.' ∧
    Fqdn (Fqdn (r.URL.Query.Get "fqdn")) = Fqdn (r.URL.Query.Get "fqdn") := by
  refine ⟨?_, Fqdn_of_terminated _, Fqdn_of_open _, Fqdn_terminated _,
    Fqdn_of_terminated _ (Fqdn_terminated _)⟩
  cases hx : dns.Exchange
      ((Msg.new RR).SetQuestion (Fqdn (r.URL.Query.Get "fqdn")) dnsType) "8.8.8.8:53" with
  | error err =>
    rw [serve, dnsQueryGet_failed dns _ r dnsType err hf hq hk hx]
    rfl
  | ok dnsResp =>
    rw [serve, dnsQueryGet_answered dns _ r dnsType dnsResp hf hq hk hx]
    rfl

/-- Witness of C6: an AAAA query for a name without the trailing terminator. -/
theorem single_question_sent_witness :
    (serve (fixedResolver standardTypes (Except.ok ⟨[], []⟩))
      (getRequest [("fqdn", ["example.com"]), ("querytype", ["AAAA"])])).exchanges.map
        (fun x => x.1.Question)
      = [[⟨"example.com.", 28, 1⟩]] :=
  (single_question_sent (fixedResolver standardTypes (Except.ok ⟨[], []⟩))
    (getRequest [("fqdn", ["example.com"]), ("querytype", ["AAAA"])]) 28
    (by decide) (by decide) (by decide)).1.trans (by decide)

/-! ## Record types -/

theorem hasLower_lookup {tbl : TypeTable} (h : lowerFreeKeys tbl = true) {s : String}
    (hs : hasLower s = true) : StringToType tbl s = none := by
  induction tbl with
  | nil => rfl
  | cons e tbl ih =>
    obtain ⟨k, v⟩ := e
    simp only [lowerFreeKeys, List.all_cons, Bool.and_eq_true, Bool.not_eq_true_eq_eq_false]
      at h
    have hne : (s == k) = false := by
      apply beq_false_of_ne
      intro hsk
      rw [hsk, h.1] at hs
      cases hs
    simp only [StringToType, List.lookup, hne]
    exact ih h.2

/-- C7, as stated, fails: with a record-type table that lists the nine standard
mnemonics and also the name None, the `querytype` None holds lowercase letters,
is not answered with 400 and reaches the upstream exchange. -/
theorem mixed_case_key_accepted :
    hasLower "None" = true ∧
    (∀ m ∈ namedMnemonics, (StringToType typesWithNone m).isSome = true) ∧
    (getRequest [("fqdn", ["example.com"]), ("querytype", ["None"])]).URL.Query.Get "fqdn"
      ≠ "" ∧
    (serve (fixedResolver typesWithNone (Except.ok ⟨[], []⟩))
      (getRequest [("fqdn", ["example.com"]), ("querytype", ["None"])])).w.Code = 200 ∧
    (serve (fixedResolver typesWithNone (Except.ok ⟨[], []⟩))
      (getRequest [("fqdn", ["example.com"]), ("querytype", ["None"])])).w.Code ≠ 400 ∧
    (serve (fixedResolver typesWithNone (Except.ok ⟨[], []⟩))
      (getRequest [("fqdn", ["example.com"]), ("querytype", ["None"])])).exchanges
      = [(⟨[⟨"example.com.", 0, 1⟩], []⟩, "8.8.8.8:53")] := by
  refine ⟨by decide, by decide, by decide, by decide, by decide, by decide⟩

/-- A lowercase token is no key of the nine standard types, so the table
`libraryTypes others` has it as a key exactly when `others` has. -/
theorem StringToType_libraryTypes_lower (others : TypeTable) {s : String}
    (hs : hasLower s = true) :
    StringToType (libraryTypes others) s = StringToType others s := by
  have h9 : StringToType standardTypes s = none :=
    @hasLower_lookup standardTypes (by decide) s hs
  simp only [StringToType] at h9
  simp only [StringToType, libraryTypes, List.lookup_append, h9, Option.none_or]

/-- Each of the nine named mnemonics is a key of `libraryTypes others`. -/
theorem StringToType_libraryTypes_named (others : TypeTable) {s : String}
    (hs : s ∈ namedMnemonics) :
    ∃ t, StringToType (libraryTypes others) s = some t := by
  have h9 : ∀ m ∈ namedMnemonics, (StringToType standardTypes m).isSome = true := by
    decide
  obtain ⟨t, ht⟩ := Option.isSome_iff_exists.mp (h9 s hs)
  simp only [StringToType] at ht
  refine ⟨t, ?_⟩
  simp only [StringToType, libraryTypes, List.lookup_append, ht]
  rfl

/-- A `querytype` that is a key of the table passes step 2: the response is not a
400 and one upstream exchange is made. -/
theorem key_accepted {RR Err : Type} (dns : Resolver RR Err) (r : Request) (t : Nat)
    (hf : r.URL.Query.Get "fqdn" ≠ "") (hq : r.URL.Query.Get "querytype" ≠ "")
    (ht : StringToType dns.types (r.URL.Query.Get "querytype") = some t) :
    (serve dns r).w.Code ≠ 400 ∧ (serve dns r).exchanges.length = 1 := by
  refine ⟨fun h4 => ?_, ?_⟩
  · rcases (exactly_one_400 dns r).mp h4 with h1 | h1 | h1
    · exact hf h1
    · exact hq h1
    · rw [ht] at h1
      cases h1
  · cases hx : dns.Exchange
        ((Msg.new RR).SetQuestion (Fqdn (r.URL.Query.Get "fqdn")) t) "8.8.8.8:53" with
    | error err =>
      rw [serve, dnsQueryGet_failed dns _ r t err hf hq ht hx]
      rfl
    | ok dnsResp =>
      rw [serve, dnsQueryGet_answered dns _ r t dnsResp hf hq ht hx]
      rfl

/-- C7, amended: matching is exact and case-sensitive against the keys of the
record-type table, which holds the nine uppercase mnemonics and whatever further
names the library registers.  For a non-empty `fqdn`, a `querytype` with a
lowercase letter is answered with 400 and "Invalid querytype parameter" unless it
is itself literally one of those further keys, and then it goes on to the
upstream exchange; each of the nine uppercase mnemonics goes on to the upstream
exchange and is not answered with 400. -/
theorem querytype_match_is_exact {RR Err : Type} (dns : Resolver RR Err)
    (others : TypeTable) (r : Request)
    (hf : r.URL.Query.Get "fqdn" ≠ "") :
    (hasLower (r.URL.Query.Get "querytype") = true →
      (((serve (dns.listing others) r).w.Code = 400 ∧
          (serve (dns.listing others) r).w.Body = "Invalid querytype parameter") ↔
        StringToType others (r.URL.Query.Get "querytype") = none)) ∧
    (hasLower (r.URL.Query.Get "querytype") = true →
      StringToType others (r.URL.Query.Get "querytype") ≠ none →
      (serve (dns.listing others) r).w.Code ≠ 400 ∧
        (serve (dns.listing others) r).exchanges.length = 1) ∧
    (r.URL.Query.Get "querytype" ∈ namedMnemonics →
      (serve (dns.listing others) r).w.Code ≠ 400 ∧
        (serve (dns.listing others) r).exchanges.length = 1) := by
  have hty : (dns.listing others).types = libraryTypes others := rfl
  have hne : ∀ {P : Prop}, hasLower (r.URL.Query.Get "querytype") = true →
      r.URL.Query.Get "querytype" = "" → P := by
    intro P hs he
    rw [he] at hs
    cases hs
  refine ⟨fun hs => ⟨fun h => ?_, fun hk => ?_⟩, fun hs hk => ?_, fun hm => ?_⟩
  · rcases (exactly_one_400 (dns.listing others) r).mp h.1 with h1 | h1 | h1
    · exact absurd h1 hf
    · exact hne hs h1
    · rw [hty, StringToType_libraryTypes_lower others hs] at h1
      exact h1
  · have hq : r.URL.Query.Get "querytype" ≠ "" := fun he => hne hs he
    have hk2 : StringToType (dns.listing others).types (r.URL.Query.Get "querytype")
        = none := by
      rw [hty, StringToType_libraryTypes_lower others hs]
      exact hk
    exact unknown_lookup_rejected (dns.listing others) r hf hq hk2
  · have hq : r.URL.Query.Get "querytype" ≠ "" := fun he => hne hs he
    cases ho : StringToType others (r.URL.Query.Get "querytype") with
    | none => exact absurd ho hk
    | some t =>
      have ht : StringToType (dns.listing others).types (r.URL.Query.Get "querytype")
          = some t := by
        rw [hty, StringToType_libraryTypes_lower others hs]
        exact ho
      exact key_accepted (dns.listing others) r t hf hq ht
  · have hq : r.URL.Query.Get "querytype" ≠ "" := by
      intro he
      rw [he] at hm
      revert hm
      decide
    obtain ⟨t, ht⟩ := StringToType_libraryTypes_named others hm
    exact key_accepted (dns.listing others) r t hf hq (hty ▸ ht)

/-- Witness of C7, amended: with a table that also registers the name None, the
mixed-case token Txt is no key and is rejected. -/
theorem querytype_match_is_exact_witness :
    hasLower "Txt" = true ∧ StringToType [("None", 0)] "Txt" = none ∧
    (serve ((fixedResolver [] (Except.ok ⟨[], []⟩)).listing [("None", 0)])
      (getRequest [("fqdn", ["example.com"]), ("querytype", ["Txt"])])).w.Code = 400 ∧
    (serve ((fixedResolver [] (Except.ok ⟨[], []⟩)).listing [("None", 0)])
      (getRequest [("fqdn", ["example.com"]), ("querytype", ["Txt"])])).w.Body
        = "Invalid querytype parameter" :=
  ⟨by decide, by decide,
    ((querytype_match_is_exact (fixedResolver [] (Except.ok ⟨[], []⟩)) [("None", 0)]
      (getRequest [("fqdn", ["example.com"]), ("querytype", ["Txt"])])
      (by decide)).1 (by decide)).mpr (by decide)⟩

end DnsQuery
